import Mathlib

/-!
Verification development for the bulk-sender script (`whatsapp-bulk-sender.mjs`).

The script reads phone numbers from a spreadsheet, normalizes them,
deduplicates them, and then drives a browser session contact by contact:
open the conversation, optionally attach files, optionally type a multiline
message, click send, and sleep a randomized delay; per-contact errors are
caught, counted and recorded, and the loop continues.

The definitions below are a shallow embedding of the script's functions:
`normalizePhone`, `readExcelPhones`, `randomBetween` and the delay
computations of `main`, `waitForAny` / `openChat` / `ensureLoggedIn`
(modelled over an abstract timeline of selector-appearance times), and the
send loop of `main` (modelled over an abstract per-step outcome
environment).  Machine-level JS details that matter are kept:

* In the source, the regex literals are written `/[^\\d+]/g` and `/\\+/g`.
  Inside a JS regex literal `\\` is an escaped backslash, so the first
  character class contains exactly the backslash, the letter `d` and `+`
  (NOT the digits), and the second pattern matches runs of backslashes
  (NOT plus signs).  The embedding reproduces this faithfully.
* `argv.delayMin || 2` treats the number `0` as falsy and replaces it by 2.
* `sleep(options.timeout || 0)` turns the timeout `0` (which for the
  element waits means "no timeout") into an immediately-resolving sleep.
-/

namespace BulkSender

/-- Characters kept by `String(raw).replace(/[^\\d+]/g, '')`.  In the regex
literal `[^\\d+]`, `\\` denotes a literal backslash, so the negated class
deletes everything except a backslash, the letter `d`, and `+`. -/
def keptByStrip (c : Char) : Bool :=
  c == '\\' || c == 'd' || c == '+'

/-- `String(raw).replace(/[^\\d+]/g, '')` from `normalizePhone`. -/
def stripNonClass (raw : String) : String :=
  ⟨raw.data.filter keptByStrip⟩

/-- `digits.replace(/\\+/g, '')` from `normalizePhone`: the pattern `\\+`
is "one or more backslashes", so the replace deletes every backslash
character (and nothing else). -/
def dropBackslashRuns (s : String) : String :=
  ⟨s.data.filter (fun c => !(c == '\\'))⟩

/-- JS `s.startsWith(p)` on the underlying character sequences, by
structural recursion on the pattern. -/
def charsStart : List Char → List Char → Bool
  | _, [] => true
  | [], _ :: _ => false
  | c :: cs, p :: ps => c == p && charsStart cs ps

/-- JS `s.startsWith(p)`. -/
def strStarts (s p : String) : Bool :=
  charsStart s.data p.data

/-- Shallow embedding of `normalizePhone(raw, countryCode)`:

```js
function normalizePhone(raw, countryCode = '') {
  if (!raw) return null;
  const digits = String(raw).replace(/[^\\d+]/g, '');
  if (!digits) return null;
  if (digits.startsWith('+')) return digits.replace(/\\+/g, '');
  if (countryCode && !digits.startsWith(countryCode)) {
    if (digits.length <= 11) return `$\x7bcountryCode\x7d$\x7bdigits\x7d`;
  }
  return digits;
}
```

`raw` is modelled as the string the script coerces the cell value to; the
only falsy string is the empty one. -/
def normalizePhone (raw : String) (countryCode : String) : Option String :=
  if raw == "" then none
  else
    let digits := stripNonClass raw
    if digits == "" then none
    else if strStarts digits "+" then some (dropBackslashRuns digits)
    else if countryCode != "" && !(strStarts digits countryCode) && digits.data.length ≤ 11 then
      some (countryCode ++ digits)
    else some digits

/-- A spreadsheet row as produced by `sheet_to_json(ws, { defval: '' })`:
an ordered association list of column name to cell string (blank cells are
present with value `""`). -/
abbrev Row := List (String × String)

/-- `row.phone ?? row.Phone ?? row.number ?? row.Number ?? Object.values(row)[0]`:
the nullish-coalescing chain falls through only on an absent property, so a
present empty string is selected; the last fallback is the row's first
field value (absent only for an empty row). -/
def rowValue (row : Row) : Option String :=
  (row.lookup "phone") <|> (row.lookup "Phone") <|> (row.lookup "number") <|>
    (row.lookup "Number") <|> (row.head?.map Prod.snd)

/-- Shallow embedding of the loop body of `readExcelPhones`: each row's
selected value is normalized (an absent value behaves like a falsy `raw`,
i.e. `null`), `null`/falsy results are dropped by `if (n)`, and
`numbers.add(n)` on a JS `Set` keeps the first occurrence and preserves
insertion order, which `Array.from` then returns. -/
def readExcelPhones (rows : List Row) (countryCode : String) : List String :=
  rows.foldl
    (fun acc row =>
      match (rowValue row).bind (fun v => normalizePhone v countryCode) with
      | none => acc
      | some n => if acc.contains n then acc else acc ++ [n])
    []

/-! ### Pacing scheduler

`Math.random()` is modelled as an explicitly passed rational `r` with
`0 ≤ r < 1`; the batch loop receives a stream `rs : Nat → ℚ` of such draws,
one per iteration. -/

/-- `function randomBetween(min, max) { return min + Math.random() * (max - min); }` -/
def randomBetween (lo hi r : ℚ) : ℚ :=
  lo + r * (hi - lo)

/-- JS `Math.round`: round half toward positive infinity, `⌊x + 1/2⌋`. -/
def jsRound (q : ℚ) : ℤ :=
  Rat.floor (q + 1 / 2)

/-- JS `x || d` on numbers: the number `0` is falsy, so it is replaced by
the default `d`. -/
def jsOrDefault (x d : ℚ) : ℚ :=
  if x = 0 then d else x

/-- `const minMs = Math.round((argv.delayMin || 2) * 1000);` -/
def minMsOf (delayMin : ℚ) : ℤ :=
  jsRound (jsOrDefault delayMin 2 * 1000)

/-- `const maxMs = Math.round((argv.delayMax || 5) * 1000);` -/
def maxMsOf (delayMax : ℚ) : ℤ :=
  jsRound (jsOrDefault delayMax 5 * 1000)

/-- `const delay = Math.round(randomBetween(minMs, maxMs));`, the sleep
after a successful send. -/
def nextDelayMs (lo hi : ℤ) (r : ℚ) : ℤ :=
  jsRound (randomBetween (lo : ℚ) (hi : ℚ) r)

/-- `await sleep(1500 + Math.random() * 2000);`, the backoff slept after a
failed send (not rounded in the source). -/
def backoffMs (r : ℚ) : ℚ :=
  1500 + r * 2000

/-! ### Batch orchestrator

The browser steps `openChat`, `attachFiles`, `typeMultiline`, `clickSend`
are effectful; for the loop of `main` only their success or thrown error
message matters, so they are modelled by an environment assigning each
contact a per-step outcome. -/

/-- Outcome of one awaited automation step: normal return, or a thrown
error carrying `err.message`. -/
inductive StepRes where
  | ok
  | err (msg : String)
deriving DecidableEq

/-- Per-contact outcomes of the four automation steps used by the loop of
`main`.  (`String(err?.message || err)` is the message recorded by the
catch block.) -/
structure AutoEnv where
  openRes : String → StepRes
  attachRes : String → StepRes
  typeRes : String → StepRes
  sendRes : String → StepRes

/-- Observable automation events of one run of the loop of `main`. -/
inductive Action where
  | openConv (phone : String)
  | attachMedia (files : List String)
  | typeMsg (text : String)
  | clickSend
  | skipLog
  | sleepMs (ms : ℚ)
deriving DecidableEq

/-- Lift a step outcome into the exception monad of the try block. -/
def stepE : StepRes → Except String Unit
  | .ok => .ok ()
  | .err m => .error m

/-- The try block of the loop body of `main` for one contact: open the
chat, then branch exactly as the source does on non-empty attachments and
non-empty message text; the returned list is the sequence of automation
events of the successful attempt:

```js
await openChat(page, phone);
if (attachments.length) {
  await attachFiles(page, attachments);
  if (msgText) { await typeMultiline(page, msgText); }
  await clickSend(page);
} else if (msgText) {
  await typeMultiline(page, msgText);
  await clickSend(page);
} else {
  console.log('Nothing to send for this contact ... Skipping.');
}
```
-/
def attempt (env : AutoEnv) (attachments : List String) (msgText : String)
    (phone : String) : Except String (List Action) := do
  stepE (env.openRes phone)
  if attachments != [] then
    stepE (env.attachRes phone)
    if msgText != "" then
      stepE (env.typeRes phone)
      stepE (env.sendRes phone)
      pure [.openConv phone, .attachMedia attachments, .typeMsg msgText, .clickSend]
    else
      stepE (env.sendRes phone)
      pure [.openConv phone, .attachMedia attachments, .clickSend]
  else if msgText != "" then
    stepE (env.typeRes phone)
    stepE (env.sendRes phone)
    pure [.openConv phone, .typeMsg msgText, .clickSend]
  else
    pure [.openConv phone, .skipLog]

/-- `const results = { sent: 0, failed: 0, errors: [] };` of `main`. -/
structure RunResults where
  sent : Nat
  failed : Nat
  errors : List (String × String)
deriving DecidableEq

/-- The contact loop of `main`, from loop index `i` on: on success the
counter `sent` is incremented and a rounded random delay is slept; on a
thrown error `failed` is incremented, `{ phone, error }` is appended to
`errors`, and the fixed-base-plus-jitter backoff is slept; either way the
loop continues with the remaining contacts.  The second component collects
the automation events (on a failed contact, the events before the throw
are not needed by any claim and are omitted). -/
def runBatchFrom (env : AutoEnv) (att : List String) (msg : String)
    (lo hi : ℤ) (rs : Nat → ℚ) : Nat → List String → RunResults × List Action
  | _, [] => (⟨0, 0, []⟩, [])
  | i, phone :: rest =>
    let head :=
      match attempt env att msg phone with
      | .ok acts =>
          ((⟨1, 0, []⟩ : RunResults),
            acts ++ [Action.sleepMs ((nextDelayMs lo hi (rs i) : ℤ) : ℚ)])
      | .error e =>
          ((⟨0, 1, [(phone, e)]⟩ : RunResults),
            [Action.sleepMs (backoffMs (rs i))])
    let tail := runBatchFrom env att msg lo hi rs (i + 1) rest
    (⟨head.1.sent + tail.1.sent, head.1.failed + tail.1.failed,
      head.1.errors ++ tail.1.errors⟩, head.2 ++ tail.2)

/-- The full contact loop of `main`, starting at index 0. -/
def runBatch (env : AutoEnv) (att : List String) (msg : String)
    (lo hi : ℤ) (rs : Nat → ℚ) (contacts : List String) : RunResults × List Action :=
  runBatchFrom env att msg lo hi rs 0 contacts

/-- Whether the attempt for a contact completes without a thrown error. -/
def attemptOk (env : AutoEnv) (att : List String) (msg : String) (phone : String) : Bool :=
  match attempt env att msg phone with
  | .ok _ => true
  | .error _ => false

/-- The contacts of a list whose attempt succeeds. -/
def okCount (env : AutoEnv) (att : List String) (msg : String) : List String → Nat
  | [] => 0
  | phone :: rest =>
      (if attemptOk env att msg phone then 1 else 0) + okCount env att msg rest

/-- The `{ phone, error }` records produced by the failing contacts of a
list, in contact order. -/
def failRecords (env : AutoEnv) (att : List String) (msg : String) :
    List String → List (String × String)
  | [] => []
  | phone :: rest =>
      (match attempt env att msg phone with
       | .error e => [(phone, e)]
       | .ok _ => []) ++ failRecords env att msg rest

/-- An environment in which every automation step of every contact
succeeds. -/
def allOk : AutoEnv :=
  ⟨fun _ => .ok, fun _ => .ok, fun _ => .ok, fun _ => .ok⟩

/-- An environment in which opening the chat of the single contact `bad`
throws the message `m`, and everything else succeeds. -/
def failAt (bad m : String) : AutoEnv :=
  ⟨fun p => if p == bad then .err m else .ok, fun _ => .ok, fun _ => .ok, fun _ => .ok⟩

/-! ### The element-wait race of `waitForAny`

`waitForAny` is modelled over an abstract timeline: each selector is
assigned the time (in ms after the call) at which its element becomes
visible, or `none` if it never does.  `page.waitForSelector(sel, options)`
resolves with a handle when the element appears within the timeout, and
rejects (caught to `null` by the `.catch`) at the timeout otherwise; a
timeout of `0` means no timeout at all, so that wait settles exactly when
the element appears — never, if it does not. -/

/-- Appearance times of selectors on the page, `none` = never visible. -/
abbrev AppearEnv := String → Option Nat

/-- The time at which the promise
`page.waitForSelector(sel, options).then(...).catch(() => null)` settles,
given the selector's appearance time; `none` = never settles (possible
only with timeout `0`, which disables the timeout). -/
def selectorSettle (timeout : Nat) (appear : Option Nat) : Option Nat :=
  if timeout = 0 then appear
  else
    match appear with
    | some t => some (min t timeout)
    | none => some timeout

/-- Whether that promise settles with an element handle (rather than with
the `null` of a timeout rejection). -/
def selectorFound (timeout : Nat) (appear : Option Nat) : Bool :=
  match appear with
  | some t => timeout == 0 || decide (t ≤ timeout)
  | none => false

/-- Settle time of `Promise.all` over the per-selector promises: the
latest of the settle times, and never if any one of them never settles. -/
def allSettle : List (Option Nat) → Option Nat
  | [] => some 0
  | s :: rest =>
    match s, allSettle rest with
    | some a, some b => some (max a b)
    | _, _ => none

/-- What a call to `waitForAny` observably does: when its awaited race
settles, and which selector's handle (if any) it returns. -/
structure WaitOutcome where
  time : Nat
  found : Option String
deriving DecidableEq

/-- Model of `waitForAny(page, selectors, options)`:

```js
const promises = selectors.map(sel => page.waitForSelector(sel, options)
  .then(h => (\x7b sel, handle: h \x7d)).catch(() => null));
const result = (await Promise.race([Promise.all(promises),
  sleep(options.timeout || 0)])) || [];
return result.find(Boolean);
```

The race is between `Promise.all` (which needs every selector wait to
settle) and `sleep(options.timeout || 0)` (which settles at the timeout —
immediately when the timeout is `0`).  On equal settle times the
`Promise.all` side wins, since the element waits and their internal
timeout timers are registered before the sleep's timer.  A `Promise.all`
win yields, via `.find(Boolean)`, the first selector in list order whose
wait produced a handle; a sleep win yields `undefined || []`, whose
`.find` returns no element. -/
def waitForAny (ap : AppearEnv) (selectors : List String) (timeout : Nat) : WaitOutcome :=
  let sleepT := timeout
  match allSettle (selectors.map fun sel => selectorSettle timeout (ap sel)) with
  | some s =>
      if s ≤ sleepT then
        ⟨s, selectors.find? fun sel => selectorFound timeout (ap sel)⟩
      else ⟨sleepT, none⟩
  | none => ⟨sleepT, none⟩

/-- The composer selector compatibility table shared by `openChat` and
`typeMultiline`. -/
def composerSelectors : List String :=
  ["div[contenteditable=\"true\"][data-tab=\"10\"]",
   "div[contenteditable=\"true\"][data-tab=\"6\"]",
   "div[aria-placeholder=\"Type a message\"]",
   "div[role=\"textbox\"][contenteditable=\"true\"]"]

/-- The chat-sidebar readiness selector of `ensureLoggedIn`. -/
def chatListSelector : String :=
  "div[data-testid=\"chatlist\"]"

/-- The readiness selector table of `ensureLoggedIn`. -/
def loginSelectors : List String :=
  [chatListSelector,
   "div[title=\"Search input textbox\"]",
   "div[aria-label=\"Search or start new chat\"]"]

/-- Model of `openChat(page, phone)`: the navigation and document-ready
waits may themselves reject (parameter `nav`); after they succeed the
function awaits `waitForAny(page, composerSelectors, \x7b timeout: 30000 \x7d)`
and DISCARDS its result — there is no check and no throw on a missing
composer.  The returned value is the time at which that wait settled. -/
def openChat (nav : Except String Unit) (ap : AppearEnv) (_phone : String) :
    Except String Nat :=
  match nav with
  | .error e => .error e
  | .ok _ => .ok (waitForAny ap composerSelectors 30000).time

/-- Model of `ensureLoggedIn(page)`: after navigating to the landing page
it awaits `waitForAny(page, [...readiness selectors...], \x7b timeout: 0 \x7d)`
and returns; the wait's outcome (settle time and found indicator) is what
the model exposes. -/
def ensureLoggedIn (ap : AppearEnv) : WaitOutcome :=
  waitForAny ap loginSelectors 0

end BulkSender

namespace BulkSender

/-- Bridge from the executable `Rat.floor` to the `Int.floor` of the order
library. -/
theorem jsRound_eq_floor (q : ℚ) : jsRound q = ⌊q + 1 / 2⌋ := by
  rw [jsRound, Rat.floor_def', Rat.floor_def]

/-- With `--delayMin 0`, `argv.delayMin || 2` evaluates to `2`, so
`minMs = 2000`. -/
theorem minMsOf_zero : minMsOf 0 = 2000 := by
  rw [minMsOf, jsOrDefault]
  norm_num [jsRound_eq_floor]

/-- With `--delayMax 0`, `argv.delayMax || 5` evaluates to `5`, so
`maxMs = 5000`. -/
theorem maxMsOf_zero : maxMsOf 0 = 5000 := by
  rw [maxMsOf, jsOrDefault]
  norm_num [jsRound_eq_floor]

/-- The delay slept after a successful send in a `--delayMin 0
--delayMax 0` run, at the random draw `0`. -/
theorem nextDelayMs_defaults_at_zero :
    nextDelayMs (minMsOf 0) (maxMsOf 0) 0 = 2000 := by
  rw [minMsOf_zero, maxMsOf_zero, nextDelayMs, randomBetween]
  norm_num [jsRound_eq_floor]

/-- The ledger component of the loop is the success count, the failure
count, and the ordered failure records of the contacts processed. -/
theorem runBatchFrom_results (env : AutoEnv) (att : List String) (msg : String)
    (lo hi : ℤ) (rs : Nat → ℚ) (contacts : List String) :
    ∀ i, (runBatchFrom env att msg lo hi rs i contacts).1
      = ⟨okCount env att msg contacts, (failRecords env att msg contacts).length,
          failRecords env att msg contacts⟩ := by
  induction contacts with
  | nil => intro i; rfl
  | cons phone rest ih =>
      intro i
      cases h : attempt env att msg phone with
      | ok acts =>
          simp [runBatchFrom, okCount, failRecords, attemptOk, h, ih (i + 1)]
      | error e =>
          simp [runBatchFrom, okCount, failRecords, attemptOk, h, ih (i + 1)]
          omega

/-- Every contact is counted exactly once, as a success or as a failure. -/
theorem okCount_add_fail_length (env : AutoEnv) (att : List String) (msg : String)
    (contacts : List String) :
    okCount env att msg contacts + (failRecords env att msg contacts).length
      = contacts.length := by
  induction contacts with
  | nil => rfl
  | cons phone rest ih =>
      cases h : attempt env att msg phone with
      | ok acts => simp [okCount, failRecords, attemptOk, h]; omega
      | error e => simp [okCount, failRecords, attemptOk, h]; omega

/-- Success counting distributes over concatenated contact lists. -/
theorem okCount_append (env : AutoEnv) (att : List String) (msg : String)
    (l₁ l₂ : List String) :
    okCount env att msg (l₁ ++ l₂) = okCount env att msg l₁ + okCount env att msg l₂ := by
  induction l₁ with
  | nil => simp [okCount]
  | cons p rest ih => simp [okCount, ih]; omega

/-- Failure records distribute over concatenated contact lists. -/
theorem failRecords_append (env : AutoEnv) (att : List String) (msg : String)
    (l₁ l₂ : List String) :
    failRecords env att msg (l₁ ++ l₂)
      = failRecords env att msg l₁ ++ failRecords env att msg l₂ := by
  induction l₁ with
  | nil => simp [failRecords]
  | cons p rest ih => simp [failRecords, ih]

/-- The race of `waitForAny` settles no later than the timeout (a timeout
of `0` makes the sleep settle immediately, so even then the bound holds). -/
theorem waitForAny_time_le (ap : AppearEnv) (selectors : List String) (timeout : Nat) :
    (waitForAny ap selectors timeout).time ≤ timeout := by
  unfold waitForAny
  cases h : allSettle (selectors.map fun sel => selectorSettle timeout (ap sel)) with
  | none => simp
  | some s =>
      simp only []
      split
      · simpa using ‹s ≤ timeout›
      · exact Nat.le_refl _

/-- C2: the claim states that `normalize` strips every character except
digits and a single leading `+`, returns null when the input has no
digits, and maps a `+`-prefixed input to its digit-only suffix.  The code
disagrees on all three points because the regex `/[^\\d+]/g` keeps only
backslashes, the letter `d`, and `+` (it deletes every digit): the claimed
input `+1 555-0100` normalizes to `"+"` instead of `"15550100"`; the
digit-free input `"d"` yields `some "d"` instead of `null`; and the
all-digit input `"12345"` yields `null`. -/
theorem normalizePhone_strips_digits_bug :
    normalizePhone "+1 555-0100" "" = some "+" ∧
      normalizePhone "d" "" = some "d" ∧
      normalizePhone "12345" "" = none := by
  refine ⟨?_, ?_, ?_⟩ <;> decide

/-- C3: the claim states that an 8-digit string with `defaultCountryCode`
`"91"` normalizes to `"91"` + the digits, and that a 12-or-more-digit
string passes through unchanged.  In the code both branches are
unreachable for digit strings: the buggy strip regex deletes every digit
first, so both inputs normalize to `null`. -/
theorem normalizePhone_countryCode_unreachable :
    normalizePhone "12345678" "91" = none ∧
      normalizePhone "123456789012" "" = none :=
  ⟨rfl, rfl⟩

/-- C4: the claim states that a sheet whose `Number` column contains
`["+1 555-0100", "+1 555-0100", ""]` loads as exactly `["15550100"]`.
The blank row is indeed dropped and the duplicate deduplicated, but the
normalizer's regex bug makes both non-blank rows normalize to `"+"`, so
the loader returns `["+"]`. -/
theorem readExcelPhones_example_bug :
    readExcelPhones
      [[("Number", "+1 555-0100")], [("Number", "+1 555-0100")], [("Number", "")]] ""
      = ["+"] := by
  decide

/-- C1: a per-contact failure is recorded as exactly one failure record
carrying that contact's normalized number and the thrown message, at that
contact's position among the failure records; the contacts before and
after it are still processed and contribute their own success and failure
counts — a failure never aborts the rest of the batch. -/
theorem failure_isolation (env : AutoEnv) (att : List String) (msg : String)
    (lo hi : ℤ) (rs : Nat → ℚ) (pre post : List String) (phone e : String)
    (hfail : attempt env att msg phone = Except.error e) :
    (runBatch env att msg lo hi rs (pre ++ phone :: post)).1.errors
      = failRecords env att msg pre ++ (phone, e) :: failRecords env att msg post
    ∧ (runBatch env att msg lo hi rs (pre ++ phone :: post)).1.sent
      = okCount env att msg pre + okCount env att msg post
    ∧ (runBatch env att msg lo hi rs (pre ++ phone :: post)).1.failed
      = (failRecords env att msg pre).length + 1
          + (failRecords env att msg post).length := by
  have h := runBatchFrom_results env att msg lo hi rs (pre ++ phone :: post) 0
  rw [runBatch, h]
  refine ⟨?_, ?_, ?_⟩
  · simp [failRecords_append, failRecords, hfail]
  · simp [okCount_append, okCount, attemptOk, hfail]
  · simp [failRecords_append, failRecords, hfail]
    omega

/-- Witness for C1, the spec's own scenario: contact 2 of 3 throws
`ConversationUnreachable`, and the ledger shows two successes, one
failure, and the single failure record `("2", "ConversationUnreachable")`
— contact 3 was still processed. -/
theorem failure_isolation_witness :
    attempt (failAt "2" "ConversationUnreachable") [] "Hi" "2"
        = Except.error "ConversationUnreachable"
    ∧ ((runBatch (failAt "2" "ConversationUnreachable") [] "Hi" 2000 5000
          (fun _ => 0) (["1"] ++ "2" :: ["3"])).1.errors
        = failRecords (failAt "2" "ConversationUnreachable") [] "Hi" ["1"]
            ++ ("2", "ConversationUnreachable")
              :: failRecords (failAt "2" "ConversationUnreachable") [] "Hi" ["3"]
      ∧ (runBatch (failAt "2" "ConversationUnreachable") [] "Hi" 2000 5000
          (fun _ => 0) (["1"] ++ "2" :: ["3"])).1.sent
        = okCount (failAt "2" "ConversationUnreachable") [] "Hi" ["1"]
            + okCount (failAt "2" "ConversationUnreachable") [] "Hi" ["3"]
      ∧ (runBatch (failAt "2" "ConversationUnreachable") [] "Hi" 2000 5000
          (fun _ => 0) (["1"] ++ "2" :: ["3"])).1.failed
        = (failRecords (failAt "2" "ConversationUnreachable") [] "Hi" ["1"]).length + 1
            + (failRecords (failAt "2" "ConversationUnreachable") [] "Hi" ["3"]).length) :=
  ⟨rfl, failure_isolation (failAt "2" "ConversationUnreachable") [] "Hi" 2000 5000
    (fun _ => 0) ["1"] ["3"] "2" "ConversationUnreachable" rfl⟩

/-- C5 counterexample: in a timeline where no composer indicator ever
appears, `openChat` still completes successfully once the 30s wait window
has elapsed — it raises no error at all, so the claimed
`ConversationUnreachable` failure does not happen. -/
theorem openChat_no_composer_still_ok :
    openChat (Except.ok ()) (fun _ => none) "15550100" = Except.ok 30000 :=
  rfl

/-- C5 (amended): `openChat` waits a bounded time — at most the 30s
window — for the composer indicators, but it completes successfully
whether or not any indicator appeared: the result of `waitForAny` is
discarded, so no `ConversationUnreachable`-style error is ever raised by
it (a missing composer only surfaces later, in `typeMultiline`). -/
theorem openChat_bounded_never_fails (ap : AppearEnv) (phone : String) :
    ∃ t ≤ 30000, openChat (Except.ok ()) ap phone = Except.ok t :=
  ⟨(waitForAny ap composerSelectors 30000).time,
    waitForAny_time_le ap composerSelectors 30000, rfl⟩

/-- C6: `ensureLoggedIn` does NOT block until a readiness indicator is
visible.  With timeout `0` the racing `sleep(options.timeout || 0)`
settles immediately, while the `Promise.all` side would need every
readiness selector to already be settled; so in a timeline where the chat
list becomes visible only at 5ms (and the search indicators never),
`ensureLoggedIn` returns at time 0 with no indicator found — before any
indicator has appeared, contradicting the claimed unbounded blocking. -/
theorem ensureLoggedIn_returns_immediately :
    ensureLoggedIn (fun sel => if sel == chatListSelector then some 5 else none)
      = ⟨0, none⟩ := by
  decide

/-- C7: in a `--delayMin 0 --delayMax 0` run with three contacts, inline
message `"Hi"` and no attachments, the three sequential open → type → send
sequences happen and the ledger is `{sent: 3, failed: 0}`, but the
injected delay is NOT zero: `argv.delayMin || 2` and `argv.delayMax || 5`
treat the explicit `0` as falsy, so each successful send is followed by a
`Math.round(randomBetween(2000, 5000))` sleep — 2000 ms at random draw 0. -/
theorem zero_delay_run_uses_default_delays :
    minMsOf 0 = 2000 ∧ maxMsOf 0 = 5000 ∧
    runBatch allOk [] "Hi" (minMsOf 0) (maxMsOf 0) (fun _ => 0)
        ["15550101", "15550102", "15550103"]
      = (⟨3, 0, []⟩,
        [.openConv "15550101", .typeMsg "Hi", .clickSend, .sleepMs 2000,
         .openConv "15550102", .typeMsg "Hi", .clickSend, .sleepMs 2000,
         .openConv "15550103", .typeMsg "Hi", .clickSend, .sleepMs 2000]) := by
  refine ⟨minMsOf_zero, maxMsOf_zero, ?_⟩
  have ha : ∀ p, attempt allOk [] "Hi" p
      = Except.ok [Action.openConv p, Action.typeMsg "Hi", Action.clickSend] :=
    fun p => rfl
  have hd : ((nextDelayMs (minMsOf 0) (maxMsOf 0) 0 : ℤ) : ℚ) = 2000 := by
    rw [nextDelayMs_defaults_at_zero]; norm_num
  simp [runBatch, runBatchFrom, ha, hd]

/-- C8: the success-path delay is `Math.round` of the affine uniform
interpolation `minMs + r * (maxMs - minMs)` of the random draw
`r ∈ [0, 1)`, hence an integer of milliseconds within `[minMs, maxMs]`;
the loop sleeps exactly it after each successful contact, and after each
failed contact it instead sleeps the distinct backoff `1500 + r * 2000`,
a fixed 1500 ms base plus up to 2000 ms of jitter. -/
theorem pacing_and_backoff_contract (lo hi : ℤ) (env : AutoEnv) (att : List String)
    (msg : String) (rs : Nat → ℚ) (i : Nat) (phone : String) (rest : List String)
    (r : ℚ) (hlh : lo ≤ hi) (hr0 : 0 ≤ r) (hr1 : r < 1) :
    (lo ≤ nextDelayMs lo hi r ∧ nextDelayMs lo hi r ≤ hi) ∧
    (backoffMs r = 1500 + r * 2000 ∧ 1500 ≤ backoffMs r ∧ backoffMs r < 3500) ∧
    (∀ acts, attempt env att msg phone = Except.ok acts →
      (runBatchFrom env att msg lo hi rs i (phone :: rest)).2
        = acts ++ Action.sleepMs ((nextDelayMs lo hi (rs i) : ℤ) : ℚ)
            :: (runBatchFrom env att msg lo hi rs (i + 1) rest).2) ∧
    (∀ e, attempt env att msg phone = Except.error e →
      (runBatchFrom env att msg lo hi rs i (phone :: rest)).2
        = Action.sleepMs (backoffMs (rs i))
            :: (runBatchFrom env att msg lo hi rs (i + 1) rest).2) := by
  have hcast : (lo : ℚ) ≤ (hi : ℚ) := by exact_mod_cast hlh
  refine ⟨⟨?_, ?_⟩, ⟨rfl, ?_, ?_⟩, ?_, ?_⟩
  · rw [nextDelayMs, randomBetween, jsRound_eq_floor, Int.le_floor]
    nlinarith [mul_nonneg hr0 (sub_nonneg.mpr hcast)]
  · rw [nextDelayMs, randomBetween, jsRound_eq_floor, ← Int.lt_add_one_iff, Int.floor_lt]
    push_cast
    nlinarith [mul_nonneg (by linarith : (0:ℚ) ≤ 1 - r) (sub_nonneg.mpr hcast)]
  · rw [backoffMs]; nlinarith
  · rw [backoffMs]; nlinarith
  · intro acts hok
    simp [runBatchFrom, hok]
  · intro e herr
    simp [runBatchFrom, herr]

/-- Witness for C8 at `minMs = 2000`, `maxMs = 5000`, draw `r = 0`, and a
one-contact batch. -/
theorem pacing_and_backoff_contract_witness :
    ((2000:ℤ) ≤ 5000 ∧ (0:ℚ) ≤ 0 ∧ (0:ℚ) < 1) ∧
    (((2000:ℤ) ≤ nextDelayMs 2000 5000 0 ∧ nextDelayMs 2000 5000 0 ≤ 5000) ∧
    (backoffMs 0 = 1500 + 0 * 2000 ∧ 1500 ≤ backoffMs 0 ∧ backoffMs 0 < 3500) ∧
    (∀ acts, attempt allOk [] "Hi" "1" = Except.ok acts →
      (runBatchFrom allOk [] "Hi" 2000 5000 (fun _ => 0) 0 ["1"]).2
        = acts ++ Action.sleepMs ((nextDelayMs 2000 5000 ((fun _ => (0:ℚ)) 0) : ℤ) : ℚ)
            :: (runBatchFrom allOk [] "Hi" 2000 5000 (fun _ => 0) (0 + 1) []).2) ∧
    (∀ e, attempt allOk [] "Hi" "1" = Except.error e →
      (runBatchFrom allOk [] "Hi" 2000 5000 (fun _ => 0) 0 ["1"]).2
        = Action.sleepMs (backoffMs ((fun _ => (0:ℚ)) 0))
            :: (runBatchFrom allOk [] "Hi" 2000 5000 (fun _ => 0) (0 + 1) []).2)) :=
  ⟨⟨by decide, le_refl 0, one_pos⟩,
    pacing_and_backoff_contract 2000 5000 allOk [] "Hi" (fun _ => 0) 0 "1" [] 0
      (by decide) (le_refl 0) one_pos⟩

/-- C9 counterexample: a one-contact batch with an empty message and no
attachments ends with `sent = 1` — the skipped job IS recorded as a sent
outcome in the ledger, contrary to the claim that it is not conflated
with a successful send. -/
theorem skip_counted_as_sent_cex :
    attempt allOk [] "" "15550100"
        = Except.ok [Action.openConv "15550100", Action.skipLog]
    ∧ (runBatch allOk [] "" 2000 5000 (fun _ => 0) ["15550100"]).1 = ⟨1, 0, []⟩ :=
  ⟨rfl, rfl⟩

/-- C9 (amended): for a contact whose job has an empty message body and no
attachments, the loop performs no automation step beyond opening the
conversation and records no failure — but, unlike the claim, the loop body
still executes `results.sent++`, so the skipped job is counted in
`sent` exactly like a successful send. -/
theorem skip_counted_as_sent (env : AutoEnv) (lo hi : ℤ) (rs : Nat → ℚ) (i : Nat)
    (phone : String) (hopen : env.openRes phone = StepRes.ok) :
    attempt env [] "" phone = Except.ok [Action.openConv phone, Action.skipLog]
    ∧ (runBatchFrom env [] "" lo hi rs i [phone]).1 = ⟨1, 0, []⟩ := by
  have ha : attempt env [] "" phone
      = Except.ok [Action.openConv phone, Action.skipLog] := by
    simp [attempt, stepE, hopen]
  exact ⟨ha, by simp [runBatchFrom, ha]⟩

/-- Witness for C9 (amended) on a concrete contact in the all-success
environment. -/
theorem skip_counted_as_sent_witness :
    allOk.openRes "15550199" = StepRes.ok
    ∧ (attempt allOk [] "" "15550199"
          = Except.ok [Action.openConv "15550199", Action.skipLog]
      ∧ (runBatchFrom allOk [] "" 2000 5000 (fun _ => 0) 0 ["15550199"]).1
          = ⟨1, 0, []⟩) :=
  ⟨rfl, skip_counted_as_sent allOk 2000 5000 (fun _ => 0) 0 "15550199" rfl⟩

/-- C10: after the loop over any batch, `sent + failed` equals the number
of contacts processed and the failure-record list has exactly `failed`
entries — each iteration increments exactly one of the two counters and
appends a record exactly when it increments `failed`. -/
theorem runBatch_ledger_invariant (env : AutoEnv) (att : List String) (msg : String)
    (lo hi : ℤ) (rs : Nat → ℚ) (contacts : List String) :
    (runBatch env att msg lo hi rs contacts).1.sent
        + (runBatch env att msg lo hi rs contacts).1.failed = contacts.length
    ∧ (runBatch env att msg lo hi rs contacts).1.errors.length
        = (runBatch env att msg lo hi rs contacts).1.failed := by
  have h := runBatchFrom_results env att msg lo hi rs contacts 0
  rw [runBatch, h]
  exact ⟨okCount_add_fail_length env att msg contacts, rfl⟩

end BulkSender
